import Mathlib

/-!
Verification development for the chess-engine wrapper
`iAndersChessApp/Engines/stockfish.cpp`.

The C++ file keeps three globals: a `bool engine_initialized`, a
`std::map<std::string, std::string> engine_options`, and an `std::mt19937 rng`.
We embed the first two as an explicit `EngineState` value threaded through the
operations, and the random generator as an explicit `Rng` value: a pair of
streams (one consulted by `std::uniform_int_distribution`, one by
`std::uniform_real_distribution`) together with a position counter that each
draw advances.  `double` arithmetic is embedded in `ℚ` (every constant the code
manipulates — integer material weights, the `(20 - skill) / 10` scaling — is
exactly representable).  C++ exceptions (`std::stoi` throwing on an
unparseable string) are embedded as `Option` results that the catching caller
eliminates.
-/

/-- Engine state: the globals `engine_initialized` and `engine_options`
of stockfish.cpp. -/
structure EngineState where
  initialized : Bool
  options : List (String × String)
deriving DecidableEq

/-- The state of the process at startup: `engine_initialized = false`,
`engine_options` empty. -/
def initialState : EngineState := ⟨false, []⟩

/-- Explicit embedding of the `std::mt19937 rng` global: the values the two
distributions would produce are abstracted as streams, and `idx` is the
generator position that every draw advances. -/
structure Rng where
  nats : Nat → Nat
  reals : Nat → ℚ
  idx : Nat

/-- Advancing the generator by one draw. -/
def Rng.next (r : Rng) : Rng := ⟨r.nats, r.reals, r.idx + 1⟩

/-- `std::uniform_int_distribution<int>(a, b)(rng)`: a value in `[a, b]`
determined by the current generator state, advancing the generator. -/
def uniformIntDraw (a b : Nat) (r : Rng) : Nat × Rng :=
  (a + r.nats r.idx % (b - a + 1), r.next)

/-- `std::uniform_real_distribution<double>(-0.5, 0.5)(rng)`: the sampled
double, abstracted as the current element of the real stream, advancing the
generator. -/
def uniformRealDraw (r : Rng) : ℚ × Rng :=
  (r.reals r.idx, r.next)

/-- Lookup in the embedded `std::map<std::string, std::string>`. -/
def mapLookup (k : String) : List (String × String) → Option String
  | [] => none
  | (k1, v) :: rest => if k1 = k then some v else mapLookup k rest

/-- Insert-or-assign, the effect of `engine_options[name] = value`. -/
def mapInsert (k v : String) : List (String × String) → List (String × String)
  | [] => [(k, v)]
  | (k1, v1) :: rest => if k1 = k then (k, v) :: rest else (k1, v1) :: mapInsert k v rest

/-- `engine_options[name]` as an rvalue: `std::map::operator[]` returns the
stored string, default-inserting the empty string when the key is absent. -/
def mapGet (st : EngineState) (k : String) : String × EngineState :=
  match mapLookup k st.options with
  | some v => (v, st)
  | none => ("", ⟨st.initialized, mapInsert k "" st.options⟩)

/-- Decimal digit value of a character, `none` on a non-digit. -/
def digitVal (c : Char) : Option Nat :=
  if '0' ≤ c ∧ c ≤ '9' then some (c.toNat - '0'.toNat) else none

/-- Accumulate the longest leading run of digits. -/
def stoiDigits (acc : Nat) : List Char → Nat
  | [] => acc
  | c :: cs =>
    match digitVal c with
    | some d => stoiDigits (acc * 10 + d) cs
    | none => acc

/-- Unsigned part of `std::stoi`: at least one leading digit is required,
otherwise the conversion throws (`none`). -/
def stoiNat : List Char → Option Nat
  | [] => none
  | c :: cs =>
    match digitVal c with
    | some d => some (stoiDigits d cs)
    | none => none

/-- `std::stoi` after whitespace skipping: optional sign, then digits. -/
def stoiCore : List Char → Option Int
  | '+' :: cs => (stoiNat cs).map fun n => (n : Int)
  | '-' :: cs => (stoiNat cs).map fun n => -(n : Int)
  | cs => (stoiNat cs).map fun n => (n : Int)

/-- `std::stoi` on a `std::string`: skips leading whitespace, parses an
optional sign and a non-empty digit run (further characters are ignored);
`none` embeds the `std::invalid_argument` throw when no conversion is
possible.  (Overflow cannot occur in the embedding, `Int` being unbounded;
no call site of the wrapper is affected.) -/
def cppStoi (s : String) : Option Int :=
  stoiCore (s.toList.dropWhile fun c => c = ' ' ∨ c = '\t' ∨ c = '\n')

/-- `stockfish_init` (stockfish.cpp:24-33): a no-op when already
initialized, otherwise stores the three default options and raises the
initialized flag. -/
def stockfish_init (st : EngineState) : EngineState :=
  if st.initialized then st
  else
    ⟨true, mapInsert "Hash" "128" (mapInsert "Threads" "1"
      (mapInsert "Skill Level" "20" st.options))⟩

/-- `stockfish_cleanup` (stockfish.cpp:36-39). -/
def stockfish_cleanup (_st : EngineState) : EngineState := ⟨false, []⟩

/-- `stockfish_set_option` (stockfish.cpp:42-45): returns unchanged when the
engine is uninitialized, otherwise stores the pair with no validation. -/
def stockfish_set_option (st : EngineState) (name value : String) : EngineState :=
  if st.initialized then ⟨st.initialized, mapInsert name value st.options⟩ else st

/-- `generate_legal_moves` (stockfish.cpp:48-61): the placeholder pushes the
same five strings whatever the FEN is. -/
def generate_legal_moves (_fen : String) : List String :=
  ["e2e4", "d2d4", "g1f3", "b1c3", "f1c4"]

/-- The character weights of the `switch` in `evaluate_position_simple`
(stockfish.cpp:71-82). -/
def pieceVal (c : Char) : Int :=
  if c = 'P' then 1
  else if c = 'p' then -1
  else if c = 'N' then 3
  else if c = 'B' then 3
  else if c = 'n' then -3
  else if c = 'b' then -3
  else if c = 'R' then 5
  else if c = 'r' then -5
  else if c = 'Q' then 9
  else if c = 'q' then -9
  else 0

/-- The accumulated material sum of the `for` loop over `board_part`. -/
def materialScore (cs : List Char) : Int := (cs.map pieceVal).sum

/-- `fen.substr(0, fen.find(' '))`: the characters before the first space,
the whole string when there is none. -/
def boardField (fen : String) : List Char :=
  fen.toList.takeWhile fun c => c ≠ ' '

/-- `evaluate_position_simple` (stockfish.cpp:64-92): material count over the
board field, plus a scaled random term when the stored skill level is below
20.  The `none` result embeds the `std::stoi` throw on an unparseable
"Skill Level" value; the returned state accounts for the possible
default-insertion by `engine_options["Skill Level"]`. -/
def evaluate_position_simple (st : EngineState) (fen : String) (rng : Rng) :
    Option ℚ × EngineState × Rng :=
  let material : Int := materialScore (boardField fen)
  let g := mapGet st "Skill Level"
  match cppStoi g.1 with
  | none => (none, g.2, rng)
  | some k =>
    if k < 20 then
      (some ((material : ℚ) + (uniformRealDraw rng).1 * ((20 - k : Int) : ℚ) / 10),
        g.2, (uniformRealDraw rng).2)
    else
      (some (material : ℚ), g.2, rng)

/-- `move.find("e4") != npos`: substring occurrence test, first the matching
of `needle` at the head of `hay` ... -/
def charsStartWith : List Char → List Char → Bool
  | [], _ => true
  | _ :: _, [] => false
  | a :: as, b :: bs => a == b && charsStartWith as bs

/-- ... then at every position of `hay`. -/
def charsOccur (needle : List Char) : List Char → Bool
  | [] => charsStartWith needle []
  | b :: bs => charsStartWith needle (b :: bs) || charsOccur needle bs

/-- `hay.find(needle) != std::string::npos`. -/
def occursIn (hay needle : String) : Bool :=
  charsOccur needle.toList hay.toList

/-- The centre test of the medium-skill branch of `select_best_move`
(stockfish.cpp:107-110). -/
def isCenterMove (m : String) : Bool :=
  occursIn m "e4" || occursIn m "d4" || occursIn m "e5" || occursIn m "d5"

/-- `select_best_move` (stockfish.cpp:95-120): empty input yields the empty
string; otherwise the stored "Skill Level" is parsed (`none` embeds the
`std::stoi` throw) and the move is picked by skill bracket: a uniform random
element at skill ≤ 5, the first centre move (else the first move) at
skill ≤ 10, the first move above. -/
def select_best_move (st : EngineState) (moves : List String) (_fen : String)
    (rng : Rng) : Option String × EngineState × Rng :=
  if moves.isEmpty then (some "", st, rng)
  else
    let g := mapGet st "Skill Level"
    match cppStoi g.1 with
    | none => (none, g.2, rng)
    | some k =>
      if k ≤ 5 then
        (some (moves.getD (uniformIntDraw 0 (moves.length - 1) rng).1 ""), g.2,
          (uniformIntDraw 0 (moves.length - 1) rng).2)
      else if k ≤ 10 then
        (some ((moves.find? isCenterMove).getD (moves.getD 0 "")), g.2, rng)
      else
        (some (moves.getD 0 ""), g.2, rng)

/-- The `if (!engine_initialized) stockfish_init();` prelude shared by
`stockfish_get_best_move` and `stockfish_evaluate_position`. -/
def effectiveState (st : EngineState) : EngineState :=
  if st.initialized then st else stockfish_init st

/-- `stockfish_get_best_move` (stockfish.cpp:123-150): auto-initializes,
generates the move list, returns `""` on an empty list, otherwise selects;
the `catch` block turns a thrown exception (`none`) into `""`. -/
def stockfish_get_best_move (st : EngineState) (fen : String) (_depth : Int)
    (_time : ℚ) (rng : Rng) : String × EngineState × Rng :=
  let st1 := effectiveState st
  let moves := generate_legal_moves fen
  if moves.isEmpty then ("", st1, rng)
  else
    match select_best_move st1 moves fen rng with
    | (some m, rest) => (m, rest)
    | (none, rest) => ("", rest)

/-- `stockfish_evaluate_position` (stockfish.cpp:153-164): auto-initializes,
evaluates, and the `catch` block turns a thrown exception (`none`)
into `0.0`. -/
def stockfish_evaluate_position (st : EngineState) (fen : String) (rng : Rng) :
    ℚ × EngineState × Rng :=
  let st1 := effectiveState st
  match evaluate_position_simple st1 fen rng with
  | (some q, rest) => (q, rest)
  | (none, rest) => (0, rest)

/-- The skill value that `stockfish_get_best_move` and
`stockfish_evaluate_position` act on: the stored "Skill Level" string after
auto-initialization, parsed as `std::stoi` does. -/
def effectiveSkill (st : EngineState) : Option Int :=
  cppStoi (mapGet (effectiveState st) "Skill Level").1

/-- The standard starting-position FEN used by the spec. -/
def startFEN : String := "rnbqkbnr/pppppppp/8/8/8/8/PPPPPPPP/RNBQKBNR w KQkq - 0 1"

example : cppStoi "20" = some 20 := by decide
example : cppStoi "high" = none := by decide
example : cppStoi "-3" = some (-3) := by decide
example : materialScore (boardField startFEN) = 0 := by decide

/-! ## Spec-side definitions

The specification (sections 3, 4.1-4.3) describes a Position data model, an
`applyMove`, an `isInCheck` query and material weights that the stub does not
implement.  The definitions below follow the spec's words; they are used to
state the refinement claim on the evaluator and the king-safety claim on the
move generator. -/

/-- Piece colour (spec 3: each square holds an optional (color, piece-kind)
pair). -/
inductive Color where
  | white
  | black
deriving DecidableEq

/-- Piece kind (spec 3). -/
inductive Kind where
  | pawn
  | knight
  | bishop
  | rook
  | queen
  | king
deriving DecidableEq

/-- Modelled from the spec (4.3): "Material weights: pawn=1, knight=3,
bishop=3, rook=5, queen=9, king=0". -/
def specWeight : Kind → Int
  | Kind.pawn => 1
  | Kind.knight => 3
  | Kind.bishop => 3
  | Kind.rook => 5
  | Kind.queen => 9
  | Kind.king => 0

/-- Modelled from the spec (4.3): "score is from White's perspective by
convention" — White pieces count positively, Black negatively. -/
def colorSign : Color → Int
  | Color.white => 1
  | Color.black => -1

/-- FEN piece letter decoding (spec 4.1: "valid piece letters"; uppercase is
White, lowercase Black). -/
def charPiece (c : Char) : Option (Color × Kind) :=
  if c = 'P' then some (Color.white, Kind.pawn)
  else if c = 'p' then some (Color.black, Kind.pawn)
  else if c = 'N' then some (Color.white, Kind.knight)
  else if c = 'B' then some (Color.white, Kind.bishop)
  else if c = 'n' then some (Color.black, Kind.knight)
  else if c = 'b' then some (Color.black, Kind.bishop)
  else if c = 'R' then some (Color.white, Kind.rook)
  else if c = 'r' then some (Color.black, Kind.rook)
  else if c = 'Q' then some (Color.white, Kind.queen)
  else if c = 'q' then some (Color.black, Kind.queen)
  else if c = 'K' then some (Color.white, Kind.king)
  else if c = 'k' then some (Color.black, Kind.king)
  else none

/-- The pieces named by a run of FEN board-field characters. -/
def charPieces (cs : List Char) : List (Color × Kind) := cs.filterMap charPiece

/-- Modelled from the spec (4.3): the material difference of a collection of
pieces, each contributing its weight with its colour's sign, positive
favouring White. -/
def specMaterialDiff (ps : List (Color × Kind)) : Int :=
  (ps.map fun p => colorSign p.1 * specWeight p.2).sum

/-- A board as the list of occupied squares: ((file, rank), piece) with
files and ranks 0-7 ('a1' = (0,0)). -/
def Board : Type := List ((Nat × Nat) × (Color × Kind))

/-- Modelled from the spec (4.1): FEN board-field parsing — ranks from the
eighth down separated by '/', digits standing for runs of empty squares,
letters for pieces. -/
def parseBoardAux : List Char → Nat → Nat → Board
  | [], _, _ => []
  | c :: cs, file, rank =>
    if c = '/' then parseBoardAux cs 0 (rank - 1)
    else
      match digitVal c with
      | some d => parseBoardAux cs (file + d) rank
      | none =>
        match charPiece c with
        | some p => ((file, rank), p) :: parseBoardAux cs (file + 1) rank
        | none => parseBoardAux cs file rank

/-- Parse the board field of a FEN string into a `Board`. -/
def specParseBoard (fen : String) : Board :=
  parseBoardAux (boardField fen) 0 7

/-- A coordinate square such as "e2" as (file, rank). -/
def sqOfChars (f r : Char) : Nat × Nat :=
  (f.toNat - 'a'.toNat, r.toNat - '1'.toNat)

/-- Remove whatever stands on a square. -/
def clearSq (b : Board) (s : Nat × Nat) : Board :=
  b.filter fun e => e.1 ≠ s

/-- What stands on a square. -/
def pieceAt (b : Board) (s : Nat × Nat) : Option (Color × Kind) :=
  (b.find? fun e => e.1 = s).map fun e => e.2

/-- Modelled from the spec (4.1, 6): `applyMove` on a coordinate-notation
move string `<origin><destination>[promotionLetter]` — the piece standing on
the origin square is relocated to the destination square, capturing by
replacement; on promotion the arriving piece takes the promoted kind.  (The
castling and en-passant flag cases of the spec's Move record are not
reachable from a plain relocation and are left out; the claims below only
apply this to a plain pawn push.) -/
def specApplyMove (b : Board) (m : String) : Board :=
  match m.toList with
  | [f1, r1, f2, r2] =>
    match pieceAt b (sqOfChars f1 r1) with
    | some p => (sqOfChars f2 r2, p) :: clearSq (clearSq b (sqOfChars f2 r2)) (sqOfChars f1 r1)
    | none => b
  | [f1, r1, f2, r2, promo] =>
    match pieceAt b (sqOfChars f1 r1) with
    | some p =>
      let k := match charPiece promo with
        | some q => q.2
        | none => p.2
      (sqOfChars f2 r2, (p.1, k)) :: clearSq (clearSq b (sqOfChars f2 r2)) (sqOfChars f1 r1)
    | none => b
  | _ => b

/-- A square seen with `Int` coordinates, for offset arithmetic. -/
def sqI (s : Nat × Nat) : Int × Int := ((s.1 : Int), (s.2 : Int))

/-- Is any piece standing on the square with these `Int` coordinates? -/
def occupiedI (b : Board) (q : Int × Int) : Bool :=
  b.any fun e => ((e.1.1 : Int), (e.1.2 : Int)) = q

/-- Is the square on the 8×8 board? -/
def onBoardI (q : Int × Int) : Bool :=
  0 ≤ q.1 && q.1 ≤ 7 && 0 ≤ q.2 && q.2 ≤ 7

/-- Walk a sliding-piece ray: from `pos` in direction `d`, the ray reaches
`target` if it arrives there before leaving the board or hitting an occupied
square (spec 4.2: "sliding pieces stop at first occupied square"). -/
def walkRay (b : Board) (pos d target : Int × Int) : Nat → Bool
  | 0 => false
  | fuel + 1 =>
    let nxt := (pos.1 + d.1, pos.2 + d.2)
    if onBoardI nxt then
      if nxt = target then true
      else if occupiedI b nxt then false
      else walkRay b nxt d target fuel
    else false

/-- The fixed knight offsets (spec 4.2: "knights/king fixed offsets"). -/
def knightOffsets : List (Int × Int) :=
  [(1, 2), (2, 1), (2, -1), (1, -2), (-1, -2), (-2, -1), (-2, 1), (-1, 2)]

/-- The fixed king offsets. -/
def kingOffsets : List (Int × Int) :=
  [(1, 0), (1, 1), (0, 1), (-1, 1), (-1, 0), (-1, -1), (0, -1), (1, -1)]

/-- The rook ray directions. -/
def rookDirs : List (Int × Int) := [(1, 0), (-1, 0), (0, 1), (0, -1)]

/-- The bishop ray directions. -/
def bishopDirs : List (Int × Int) := [(1, 1), (1, -1), (-1, 1), (-1, -1)]

/-- Modelled from the spec (4.2): does the piece `p` standing on `from1`
attack the square `target`?  Pawns capture one square diagonally forward,
knights and kings use their fixed offsets, sliding pieces walk rays that stop
at the first occupied square. -/
def attacksSq (b : Board) (from1 : Nat × Nat) (p : Color × Kind)
    (target : Nat × Nat) : Bool :=
  let f := sqI from1
  let t := sqI target
  match p.2 with
  | Kind.pawn =>
    let dir : Int := if p.1 = Color.white then 1 else -1
    (t = (f.1 + 1, f.2 + dir)) || (t = (f.1 - 1, f.2 + dir))
  | Kind.knight => knightOffsets.any fun o => t = (f.1 + o.1, f.2 + o.2)
  | Kind.king => kingOffsets.any fun o => t = (f.1 + o.1, f.2 + o.2)
  | Kind.rook => rookDirs.any fun d => walkRay b f d t 8
  | Kind.bishop => bishopDirs.any fun d => walkRay b f d t 8
  | Kind.queen => (rookDirs ++ bishopDirs).any fun d => walkRay b f d t 8

/-- Modelled from the spec (4.1): `isInCheck(color)` — the king of that
colour stands on a square attacked by some enemy piece. -/
def specIsInCheck (b : Board) (c : Color) : Bool :=
  match b.find? fun e => e.2 = (c, Kind.king) with
  | some ke => b.any fun e => e.2.1 ≠ c && attacksSq b e.1 e.2 ke.1
  | none => false

/-- A position with White to move whose king on e1 stands in check from the
rook on a1; the white pawn on e2 cannot resolve the check by advancing. -/
def checkFEN : String := "4k3/8/8/8/8/8/4P3/r3K3 w - - 0 1"

example : pieceAt (specParseBoard checkFEN) (4, 0) = some (Color.white, Kind.king) := by decide
example : specIsInCheck (specParseBoard checkFEN) Color.white = true := by decide
example : specIsInCheck (specApplyMove (specParseBoard checkFEN) "e2e4") Color.white = true := by
  decide
example : specIsInCheck (specParseBoard startFEN) Color.white = false := by decide

/-! ## Concrete states and generators used in witnesses and counterexamples -/

/-- The reachable state `stockfish_init(); stockfish_set_option("Skill Level", "10")`. -/
def lowSkillState : EngineState :=
  stockfish_set_option (stockfish_init initialState) "Skill Level" "10"

/-- The reachable state `stockfish_init(); stockfish_set_option("Skill Level", "high")`:
the stored skill value no longer parses as an integer. -/
def badSkillState : EngineState :=
  stockfish_set_option (stockfish_init initialState) "Skill Level" "high"

/-- A generator whose every draw is zero. -/
def rngZero : Rng := ⟨fun _ => 0, fun _ => 0, 0⟩

/-- A generator whose every real draw is 1/4 (a value
`std::uniform_real_distribution<double>(-0.5, 0.5)` can produce). -/
def rngQuarter : Rng := ⟨fun _ => 0, fun _ => (1 : ℚ) / 4, 0⟩

/-- A generator whose first real draw is 0 and whose later draws are 1/4:
two successive draws of a pseudorandom generator that happen to differ. -/
def rngStep : Rng := ⟨fun _ => 0, fun n => if n = 0 then 0 else (1 : ℚ) / 4, 0⟩

/-! ## Helper lemmas -/

theorem mapLookup_insert_self (k v : String) (m : List (String × String)) :
    mapLookup k (mapInsert k v m) = some v := by
  induction m with
  | nil => simp [mapInsert, mapLookup]
  | cons e rest ih =>
    by_cases h : e.1 = k
    · simp [mapInsert, mapLookup, h]
    · simp [mapInsert, mapLookup, h, ih]

theorem mapLookup_insert_ne (k1 k v : String) (m : List (String × String))
    (h : k1 ≠ k) : mapLookup k1 (mapInsert k v m) = mapLookup k1 m := by
  induction m with
  | nil => simp [mapInsert, mapLookup, Ne.symm h]
  | cons e rest ih =>
    by_cases he : e.1 = k
    · simp [mapInsert, mapLookup, he, Ne.symm h]
    · simp [mapInsert, mapLookup, he, ih]

/-- The per-character value the spec's weights assign to a FEN letter. -/
def specCharVal (c : Char) : Int :=
  ((charPiece c).map fun p => colorSign p.1 * specWeight p.2).getD 0

theorem pieceVal_eq_specCharVal (c : Char) : pieceVal c = specCharVal c := by
  by_cases h01 : c = 'P'
  · subst h01; decide
  by_cases h02 : c = 'p'
  · subst h02; decide
  by_cases h03 : c = 'N'
  · subst h03; decide
  by_cases h04 : c = 'B'
  · subst h04; decide
  by_cases h05 : c = 'n'
  · subst h05; decide
  by_cases h06 : c = 'b'
  · subst h06; decide
  by_cases h07 : c = 'R'
  · subst h07; decide
  by_cases h08 : c = 'r'
  · subst h08; decide
  by_cases h09 : c = 'Q'
  · subst h09; decide
  by_cases h10 : c = 'q'
  · subst h10; decide
  by_cases h11 : c = 'K'
  · subst h11; decide
  by_cases h12 : c = 'k'
  · subst h12; decide
  simp [pieceVal, specCharVal, charPiece, h01, h02, h03, h04, h05, h06, h07,
    h08, h09, h10, h11, h12]

theorem materialScore_eq_spec (cs : List Char) :
    materialScore cs = specMaterialDiff (charPieces cs) := by
  induction cs with
  | nil => rfl
  | cons c rest ih =>
    have h := pieceVal_eq_specCharVal c
    simp only [materialScore, List.map_cons, List.sum_cons, charPieces,
      List.filterMap_cons] at *
    rw [specCharVal] at h
    cases hc : charPiece c with
    | none =>
      rw [hc] at h
      simp at h
      simp [h, ih, hc]
    | some p =>
      rw [hc] at h
      simp at h
      simp [h, ih, hc, specMaterialDiff]

theorem mapGet_of_lookup (st : EngineState) (k s : String)
    (h : mapLookup k st.options = some s) : mapGet st k = (s, st) := by
  simp [mapGet, h]

theorem effectiveSkill_lookup (st : EngineState) (k : Int)
    (h : effectiveSkill st = some k) :
    ∃ s, mapLookup "Skill Level" (effectiveState st).options = some s ∧
      cppStoi s = some k := by
  unfold effectiveSkill mapGet at h
  cases hl : mapLookup "Skill Level" (effectiveState st).options with
  | none =>
    rw [hl] at h
    simp at h
    rw [show cppStoi "" = (none : Option Int) by decide] at h
    exact Option.noConfusion h
  | some s =>
    rw [hl] at h
    simp at h
    exact ⟨s, rfl, h⟩

theorem evaluate_position_simple_eq (st : EngineState) (fen : String) (rng : Rng)
    (s : String) (k : Int) (hl : mapLookup "Skill Level" st.options = some s)
    (hk : cppStoi s = some k) :
    evaluate_position_simple st fen rng =
      if k < 20 then
        (some ((materialScore (boardField fen) : ℚ) +
          rng.reals rng.idx * ((20 - k : Int) : ℚ) / 10), st, rng.next)
      else (some ((materialScore (boardField fen) : ℚ)), st, rng) := by
  simp only [evaluate_position_simple, mapGet_of_lookup st "Skill Level" s hl, hk,
    uniformRealDraw]

theorem stockfish_evaluate_position_eq (st : EngineState) (fen : String) (rng : Rng)
    (k : Int) (h : effectiveSkill st = some k) :
    stockfish_evaluate_position st fen rng =
      if k < 20 then
        ((materialScore (boardField fen) : ℚ) +
          rng.reals rng.idx * ((20 - k : Int) : ℚ) / 10, effectiveState st, rng.next)
      else ((materialScore (boardField fen) : ℚ), effectiveState st, rng) := by
  obtain ⟨s, hl, hk⟩ := effectiveSkill_lookup st k h
  simp only [stockfish_evaluate_position]
  rw [evaluate_position_simple_eq (effectiveState st) fen rng s k hl hk]
  by_cases hlt : k < 20 <;> simp [hlt]

theorem init_lookup_skill (st : EngineState) (h : st.initialized = false) :
    mapLookup "Skill Level" (stockfish_init st).options = some "20" := by
  unfold stockfish_init
  simp only [h, Bool.false_eq_true, if_false]
  rw [mapLookup_insert_ne _ _ _ _ (by decide), mapLookup_insert_ne _ _ _ _ (by decide),
    mapLookup_insert_self]

theorem init_lookup_threads (st : EngineState) (h : st.initialized = false) :
    mapLookup "Threads" (stockfish_init st).options = some "1" := by
  unfold stockfish_init
  simp only [h, Bool.false_eq_true, if_false]
  rw [mapLookup_insert_ne _ _ _ _ (by decide), mapLookup_insert_self]

theorem init_lookup_hash (st : EngineState) (h : st.initialized = false) :
    mapLookup "Hash" (stockfish_init st).options = some "128" := by
  unfold stockfish_init
  simp only [h, Bool.false_eq_true, if_false]
  rw [mapLookup_insert_self]

theorem effectiveState_of_uninit (st : EngineState) (h : st.initialized = false) :
    effectiveState st = stockfish_init st := by
  unfold effectiveState
  simp [h]

theorem effectiveState_initialized (st : EngineState) :
    (effectiveState st).initialized = true := by
  unfold effectiveState stockfish_init
  cases hb : st.initialized <;> simp [hb]

theorem effectiveSkill_of_uninit (st : EngineState) (h : st.initialized = false) :
    effectiveSkill st = some 20 := by
  unfold effectiveSkill
  rw [effectiveState_of_uninit st h,
    mapGet_of_lookup _ _ "20" (init_lookup_skill st h)]
  exact (by decide : cppStoi "20" = some 20)

theorem mapGet_state_initialized (st : EngineState) (k : String) :
    (mapGet st k).2.initialized = st.initialized := by
  unfold mapGet
  cases h : mapLookup k st.options <;> simp [h]

theorem select_state_initialized (st : EngineState) (moves : List String)
    (fen : String) (rng : Rng) :
    (select_best_move st moves fen rng).2.1.initialized = st.initialized := by
  simp only [select_best_move]
  split
  · rfl
  · split
    · simp [mapGet_state_initialized]
    · split_ifs <;> simp [mapGet_state_initialized]

theorem evalsimple_state_initialized (st : EngineState) (fen : String) (rng : Rng) :
    (evaluate_position_simple st fen rng).2.1.initialized = st.initialized := by
  simp only [evaluate_position_simple]
  split
  · simp [mapGet_state_initialized]
  · split_ifs <;> simp [mapGet_state_initialized]

theorem select_best_move_eq_high (st : EngineState) (moves : List String)
    (fen : String) (rng : Rng) (s : String) (k : Int)
    (hl : mapLookup "Skill Level" st.options = some s) (hk : cppStoi s = some k)
    (h10 : 10 < k) (hne : moves.isEmpty = false) :
    select_best_move st moves fen rng = (some (moves.getD 0 ""), st, rng) := by
  simp only [select_best_move, hne, Bool.false_eq_true, if_false,
    mapGet_of_lookup st "Skill Level" s hl, hk]
  rw [if_neg (by omega), if_neg (by omega)]

theorem getBestMove_uninit_eq (st : EngineState) (fen : String) (d : Int) (t : ℚ)
    (rng : Rng) (h : st.initialized = false) :
    stockfish_get_best_move st fen d t rng = ("e2e4", stockfish_init st, rng) := by
  have hsel := select_best_move_eq_high (stockfish_init st) (generate_legal_moves fen)
    fen rng "20" 20 (init_lookup_skill st h) (by decide) (by omega) rfl
  simp only [generate_legal_moves] at hsel
  simp [stockfish_get_best_move, generate_legal_moves, effectiveState_of_uninit st h,
    hsel]

theorem getD_mem : ∀ (l : List String) (i : Nat), i < l.length → l.getD i "" ∈ l
  | a :: l, 0, _ => by simp
  | a :: l, i + 1, h => by
    have ih := getD_mem l i (by simpa using h)
    simpa using Or.inr ih

theorem select_best_move_mem (st : EngineState) (moves : List String) (fen : String)
    (rng : Rng) (s : String) (k : Int)
    (hl : mapLookup "Skill Level" st.options = some s) (hk : cppStoi s = some k)
    (hne : moves.isEmpty = false) :
    ∃ m, (select_best_move st moves fen rng).1 = some m ∧ m ∈ moves := by
  have hlen : 0 < moves.length := by
    cases moves with
    | nil => simp at hne
    | cons a l => simp
  simp only [select_best_move, hne, Bool.false_eq_true, if_false,
    mapGet_of_lookup st "Skill Level" s hl, hk]
  by_cases h5 : k ≤ 5
  · rw [if_pos h5]
    refine ⟨_, rfl, ?_⟩
    apply getD_mem
    simp only [uniformIntDraw, Nat.zero_add]
    have : moves.length - 1 + 1 = moves.length := Nat.succ_pred_eq_of_pos hlen
    rw [Nat.sub_zero, this]
    exact Nat.mod_lt _ hlen
  · rw [if_neg h5]
    by_cases h10 : k ≤ 10
    · rw [if_pos h10]
      refine ⟨_, rfl, ?_⟩
      cases hf : moves.find? isCenterMove with
      | some m => simp [hf]; exact List.mem_of_find?_eq_some hf
      | none => simp [hf]; simpa using getD_mem moves 0 hlen
    · rw [if_neg h10]
      refine ⟨_, rfl, ?_⟩
      simpa using getD_mem moves 0 hlen

/-! ## Claims -/

/-- C1 (counterexample): `stockfish_get_best_move` does return the
empty-string sentinel on a concrete reachable input — after
`stockfish_set_option("Skill Level", "high")` the internal `std::stoi` throw
is caught and the empty string comes back, never a `none` indicator. -/
theorem bestMove_empty_sentinel_on_parse_failure :
    (stockfish_get_best_move badSkillState startFEN 10 1 rngZero).1 = "" := by decide

/-- C1 (amended): the zero-legal-move case cannot occur
(`generate_legal_moves` never returns an empty list), and the code's
designated no-legal-move result is the empty string, not a `none` value:
`select_best_move` on an empty move list yields `""`. -/
theorem no_none_indicator_empty_sentinel (st : EngineState) (fen : String) (rng : Rng) :
    generate_legal_moves fen ≠ [] ∧ (select_best_move st [] fen rng).1 = some "" :=
  ⟨by simp [generate_legal_moves], rfl⟩

/-- C2 (counterexample): evaluation is not deterministic — in the reachable
configuration with "Skill Level" set to "10", two successive calls of
`stockfish_evaluate_position` on the same FEN return different scores,
because each call draws from the advancing random generator. -/
theorem evaluate_two_calls_differ :
    (stockfish_evaluate_position lowSkillState startFEN rngStep).1 ≠
      (stockfish_evaluate_position
        (stockfish_evaluate_position lowSkillState startFEN rngStep).2.1 startFEN
        (stockfish_evaluate_position lowSkillState startFEN rngStep).2.2).1 := by
  have h10 : effectiveSkill lowSkillState = some 10 := by decide
  have heff : effectiveState lowSkillState = lowSkillState := by decide
  have hmat : materialScore (boardField startFEN) = 0 := by decide
  rw [stockfish_evaluate_position_eq lowSkillState startFEN rngStep 10 h10]
  rw [if_pos (show (10 : Int) < 20 by norm_num)]
  simp only [heff, hmat]
  rw [stockfish_evaluate_position_eq lowSkillState startFEN rngStep.next 10 h10]
  rw [if_pos (show (10 : Int) < 20 by norm_num)]
  simp [rngStep, Rng.next, hmat]

/-- C3 (counterexample): `stockfish_set_option` on the unrecognized name
"FooBar" is not a no-op — the pair is stored (there was no prior value, and
afterwards one is present). -/
theorem setOption_unrecognized_changes_state :
    mapLookup "FooBar"
        (stockfish_set_option (stockfish_init initialState) "FooBar" "baz").options =
      some "baz" ∧
    mapLookup "FooBar" (stockfish_init initialState).options = none := by decide

/-- C4 (counterexample): on the standard starting position the generator
does not return 20 moves. -/
theorem startpos_not_twenty_moves :
    ¬ (generate_legal_moves startFEN).length = 20 := by decide

/-- C4 (amended): `generate_legal_moves` returns exactly 5 moves for every
FEN string, the starting position included. -/
theorem generate_moves_always_five (fen : String) :
    (generate_legal_moves fen).length = 5 := rfl

/-- C6 (counterexample): the generator's output is not king-safe — for the
position `4k3/8/8/8/8/8/4P3/r3K3 w - - 0 1` (White in check from the rook on
a1) the returned move e2e4 leaves White's own king in check after being
applied. -/
theorem generated_move_leaves_king_in_check :
    "e2e4" ∈ generate_legal_moves checkFEN ∧
      specIsInCheck (specApplyMove (specParseBoard checkFEN) "e2e4") Color.white = true := by
  decide

/-- C6 (amended): `generate_legal_moves` ignores its position argument
entirely — it returns the same list for every input — so no king-safety
filtering relative to the position takes place. -/
theorem generate_moves_ignore_position (fen1 fen2 : String) :
    generate_legal_moves fen1 = generate_legal_moves fen2 := rfl

/-- C7: `stockfish_init` is idempotent — from any state, calling it twice
leaves the same initialized flag and option map as calling it once. -/
theorem init_idempotent (st : EngineState) :
    stockfish_init (stockfish_init st) = stockfish_init st := by
  unfold stockfish_init
  by_cases h : st.initialized <;> simp [h]

/-- C2 (amended): position evaluation is deterministic exactly in the
configurations whose effective "Skill Level" parses to at least 20 (the
default): there the score does not depend on the random generator at all. -/
theorem evaluate_deterministic_at_high_skill (st : EngineState) (fen : String)
    (rng1 rng2 : Rng) (k : Int) (h : effectiveSkill st = some k) (h20 : 20 ≤ k) :
    (stockfish_evaluate_position st fen rng1).1 =
      (stockfish_evaluate_position st fen rng2).1 := by
  rw [stockfish_evaluate_position_eq st fen rng1 k h,
    stockfish_evaluate_position_eq st fen rng2 k h,
    if_neg (by omega), if_neg (by omega)]

/-- Witness for C2 (amended): the default configuration at two different
generator states gives the same score. -/
theorem evaluate_deterministic_at_high_skill_witness :
    (stockfish_evaluate_position (stockfish_init initialState) startFEN rngZero).1 =
      (stockfish_evaluate_position (stockfish_init initialState) startFEN rngQuarter).1 :=
  evaluate_deterministic_at_high_skill (stockfish_init initialState) startFEN
    rngZero rngQuarter 20 (by decide) (by norm_num)

/-- C3 (amended): once the engine is initialized, `stockfish_set_option`
stores any name/value pair verbatim — no name or range validation happens —
while every other stored option retains its prior value. -/
theorem setOption_stores_unconditionally (st : EngineState) (n v : String)
    (h : st.initialized = true) :
    mapLookup n (stockfish_set_option st n v).options = some v ∧
      ∀ m, m ≠ n →
        mapLookup m (stockfish_set_option st n v).options = mapLookup m st.options := by
  unfold stockfish_set_option
  simp only [h, if_true]
  exact ⟨mapLookup_insert_self n v st.options,
    fun m hm => mapLookup_insert_ne m n v st.options hm⟩

/-- Witness for C3 (amended): an unrecognized name with an out-of-range-style
value is stored, and an untouched recognized option keeps its value. -/
theorem setOption_stores_unconditionally_witness :
    mapLookup "Weird Name"
        (stockfish_set_option (stockfish_init initialState) "Weird Name" "999").options =
      some "999" ∧
    mapLookup "Threads"
        (stockfish_set_option (stockfish_init initialState) "Weird Name" "999").options =
      mapLookup "Threads" (stockfish_init initialState).options :=
  ⟨(setOption_stores_unconditionally (stockfish_init initialState) "Weird Name" "999"
      (by decide)).1,
   (setOption_stores_unconditionally (stockfish_init initialState) "Weird Name" "999"
      (by decide)).2 "Threads" (by decide)⟩

/-- C5 (counterexample): in the reachable configuration with "Skill Level"
set to "10", the returned score differs from the material difference — the
random term is added on top of it. -/
theorem evaluate_not_material_at_low_skill :
    (stockfish_evaluate_position lowSkillState startFEN rngQuarter).1 ≠
      ((specMaterialDiff (charPieces (boardField startFEN)) : Int) : ℚ) := by
  have h10 : effectiveSkill lowSkillState = some 10 := by decide
  have hmat : materialScore (boardField startFEN) = 0 := by decide
  have hspec : specMaterialDiff (charPieces (boardField startFEN)) = 0 := by decide
  rw [stockfish_evaluate_position_eq lowSkillState startFEN rngQuarter 10 h10,
    if_pos (show (10 : Int) < 20 by norm_num)]
  simp [rngQuarter, hmat, hspec]

/-- C5 (amended): whenever the effective "Skill Level" parses to at least 20
(in particular in the default configuration), the evaluation is exactly the
material difference from White's perspective under the spec's weights
pawn=1, knight=3, bishop=3, rook=5, queen=9, king=0. -/
theorem evaluate_is_spec_material (st : EngineState) (fen : String) (rng : Rng)
    (k : Int) (h : effectiveSkill st = some k) (h20 : 20 ≤ k) :
    (stockfish_evaluate_position st fen rng).1 =
      ((specMaterialDiff (charPieces (boardField fen)) : Int) : ℚ) := by
  rw [stockfish_evaluate_position_eq st fen rng k h, if_neg (by omega),
    ← materialScore_eq_spec]

/-- Witness for C5 (amended): the default configuration on the starting
position. -/
theorem evaluate_is_spec_material_witness :
    (stockfish_evaluate_position (stockfish_init initialState) startFEN rngQuarter).1 =
      ((specMaterialDiff (charPieces (boardField startFEN)) : Int) : ℚ) :=
  evaluate_is_spec_material (stockfish_init initialState) startFEN rngQuarter 20
    (by decide) (by norm_num)

/-- C8: whenever the effective "Skill Level" parses as an integer, the move
returned by `stockfish_get_best_move` is one of the five hardcoded strings,
whatever the position, depth and time arguments are. -/
theorem bestMove_in_fixed_list (st : EngineState) (fen : String) (d : Int) (t : ℚ)
    (rng : Rng) (k : Int) (h : effectiveSkill st = some k) :
    (stockfish_get_best_move st fen d t rng).1 ∈
      ["e2e4", "d2d4", "g1f3", "b1c3", "f1c4"] := by
  obtain ⟨s, hl, hk⟩ := effectiveSkill_lookup st k h
  obtain ⟨m, hm, hmem⟩ := select_best_move_mem (effectiveState st)
    ["e2e4", "d2d4", "g1f3", "b1c3", "f1c4"] fen rng s k hl hk rfl
  simp only [stockfish_get_best_move, generate_legal_moves]
  rcases hsel : select_best_move (effectiveState st)
    ["e2e4", "d2d4", "g1f3", "b1c3", "f1c4"] fen rng with ⟨o, st2, rng2⟩
  rw [hsel] at hm
  simp only at hm
  subst hm
  simp [hsel, hmem]

/-- Witness for C8: the default configuration on the starting position. -/
theorem bestMove_in_fixed_list_witness :
    (stockfish_get_best_move (stockfish_init initialState) startFEN 3 1 rngZero).1 ∈
      ["e2e4", "d2d4", "g1f3", "b1c3", "f1c4"] :=
  bestMove_in_fixed_list (stockfish_init initialState) startFEN 3 1 rngZero 20
    (by decide)

/-- C9: before initialization `stockfish_set_option` leaves the whole engine
state unchanged (the option is silently dropped); after initialization it
stores any name/value pair unconditionally. -/
theorem setOption_uninit_noop (st : EngineState) (n v : String) :
    (st.initialized = false → stockfish_set_option st n v = st) ∧
      (st.initialized = true →
        (stockfish_set_option st n v).initialized = true ∧
          mapLookup n (stockfish_set_option st n v).options = some v) := by
  constructor
  · intro h
    unfold stockfish_set_option
    simp [h]
  · intro h
    unfold stockfish_set_option
    simp [h, mapLookup_insert_self]

/-- Witness for C9: dropped before init, stored after init. -/
theorem setOption_uninit_noop_witness :
    stockfish_set_option initialState "Skill Level" "5" = initialState ∧
      mapLookup "Skill Level"
          (stockfish_set_option (stockfish_init initialState) "Skill Level" "5").options =
        some "5" :=
  ⟨(setOption_uninit_noop initialState "Skill Level" "5").1 rfl,
   ((setOption_uninit_noop (stockfish_init initialState) "Skill Level" "5").2
      (by decide)).2⟩

/-- C10: after any call of `stockfish_get_best_move` or
`stockfish_evaluate_position` the engine is initialized; from an
uninitialized state the call first runs `stockfish_init`, whose defaults are
Skill Level = 20, Threads = 1, Hash = 128, so neither operation can miss
initialization. -/
theorem ops_always_leave_init (st : EngineState) (fen : String) (d : Int) (t : ℚ)
    (rng : Rng) :
    (stockfish_get_best_move st fen d t rng).2.1.initialized = true ∧
      (stockfish_evaluate_position st fen rng).2.1.initialized = true ∧
      (st.initialized = false →
        (stockfish_get_best_move st fen d t rng).2.1 = stockfish_init st ∧
          (stockfish_evaluate_position st fen rng).2.1 = stockfish_init st ∧
          mapLookup "Skill Level" (stockfish_init st).options = some "20" ∧
          mapLookup "Threads" (stockfish_init st).options = some "1" ∧
          mapLookup "Hash" (stockfish_init st).options = some "128") := by
  refine ⟨?_, ?_, ?_⟩
  · simp only [stockfish_get_best_move, generate_legal_moves]
    rcases hsel : select_best_move (effectiveState st)
      ["e2e4", "d2d4", "g1f3", "b1c3", "f1c4"] fen rng with ⟨o, st2, rng2⟩
    have hst2 : st2.initialized = true := by
      have := select_state_initialized (effectiveState st)
        ["e2e4", "d2d4", "g1f3", "b1c3", "f1c4"] fen rng
      rw [hsel, effectiveState_initialized] at this
      simpa using this
    cases o <;> simp [hsel, hst2]
  · simp only [stockfish_evaluate_position]
    rcases heval : evaluate_position_simple (effectiveState st) fen rng
      with ⟨o, st2, rng2⟩
    have hst2 : st2.initialized = true := by
      have := evalsimple_state_initialized (effectiveState st) fen rng
      rw [heval, effectiveState_initialized] at this
      simpa using this
    cases o <;> simp [heval, hst2]
  · intro h
    refine ⟨?_, ?_, init_lookup_skill st h, init_lookup_threads st h,
      init_lookup_hash st h⟩
    · rw [getBestMove_uninit_eq st fen d t rng h]
    · rw [stockfish_evaluate_position_eq st fen rng 20 (effectiveSkill_of_uninit st h),
        if_neg (by omega)]
      exact effectiveState_of_uninit st h

/-- Witness for C10: a call from the uninitialized startup state. -/
theorem ops_always_leave_init_witness :
    (stockfish_get_best_move initialState startFEN 3 1 rngZero).2.1 =
        stockfish_init initialState ∧
      mapLookup "Skill Level" (stockfish_init initialState).options = some "20" :=
  ⟨((ops_always_leave_init initialState startFEN 3 1 rngZero).2.2 rfl).1,
   ((ops_always_leave_init initialState startFEN 3 1 rngZero).2.2 rfl).2.2.1⟩
